import Mathlib

/-!
Verification of the go-scrape repository against its specification.

The embedding models, from the source:
- the HTML node tree and the text extraction of `extractTextFromHTML` /
  `isIgnorable` (manual DOM-traversal version of package scraper);
- the two `ExtractTextFromURL` implementations (manual DOM-traversal
  version and readability-based version in src/scraper/text.go), with the
  HTTP fetch outcome, URL parsing and the readability library abstracted
  as explicit inputs;
- the HTTP handler `scrapeHandler` of main.go, with the JSON decoding of
  the request body and the extractor abstracted as explicit inputs.
-/

/-- Node types of golang.org/x/net/html. -/
inductive NodeType where
  | errorNode
  | textNode
  | documentNode
  | elementNode
  | commentNode
  | doctypeNode
deriving DecidableEq, Repr

/-- An html.Node: type, data (tag name for elements, text for text nodes)
and the list of children. A nil parent pointer is modelled by passing the
parent as an `Option` during traversal. -/
inductive HNode where
  | mk (type : NodeType) (data : String) (children : List HNode)

/-- The node type of an HNode. -/
def HNode.type : HNode → NodeType
  | .mk t _ _ => t

/-- The data field of an HNode. -/
def HNode.data : HNode → String
  | .mk _ d _ => d

/-- The children of an HNode. -/
def HNode.children : HNode → List HNode
  | .mk _ _ c => c

/-- isIgnorable from main.go: nil (none) or a non-element node is not
ignorable; an element is ignorable when its tag is script, style, head or
noscript. -/
def isIgnorable : Option HNode → Bool
  | none => false
  | some n =>
    if n.type ≠ NodeType.elementNode then false
    else n.data == "script" || n.data == "style" || n.data == "head" || n.data == "noscript"

/-- Whitespace recognised by the model of strings.TrimSpace (the ASCII
part of unicode.IsSpace). -/
def goIsSpace (c : Char) : Bool :=
  c == ' ' || c == '\t' || c == '\n' || c == Char.ofNat 11 || c == Char.ofNat 12 || c == '\r'

/-- Trim whitespace from both ends of a character list. -/
def trimChars (l : List Char) : List Char :=
  List.rdropWhile goIsSpace (List.dropWhile goIsSpace l)

/-- Model of strings.TrimSpace. -/
def trimSpace (s : String) : String :=
  String.mk (trimChars s.data)

/-- The contribution of one node to the string builder in
extractTextFromHTML: a text node whose parent is not ignorable writes its
trimmed data followed by a space, provided the trimmed data is nonempty. -/
def textNodeChunk (parent : Option HNode) (n : HNode) : String :=
  if n.type = NodeType.textNode ∧ isIgnorable parent = false then
    let text := trimSpace n.data
    if text = "" then "" else text ++ " "
  else ""

/-- The traverse closure of extractTextFromHTML, written on forests: the
text accumulated by visiting each node of the list in order, descending
into every child list (the Go code recurses into all children regardless
of the parent's tag; only the immediate parent is consulted for a text
node). -/
def forestText : Option HNode → List HNode → String
  | _, [] => ""
  | parent, HNode.mk ty data children :: rest =>
    textNodeChunk parent (HNode.mk ty data children)
      ++ forestText (some (HNode.mk ty data children)) children
      ++ forestText parent rest

/-- extractTextFromHTML from main.go: traverse the parsed document
(whose parent pointer is nil) and trim the accumulated text. -/
def extractTextFromHTML (doc : HNode) : String :=
  trimSpace (forestText none [doc])

example : trimSpace "  a b " = "a b" := by decide

example :
    extractTextFromHTML
      (.mk .documentNode "" [
        .mk .elementNode "html" [
          .mk .elementNode "body" [ .mk .textNode " x " [], .mk .textNode "y" [] ] ] ])
      = "x y" := by
  simp [extractTextFromHTML, forestText, textNodeChunk, isIgnorable, HNode.type, HNode.data]
  decide

/-- Outcome of an HTTP GET as seen by the Go code: a transport error
(err != nil) or a response with a status code and a body. -/
inductive FetchResult where
  | transportError (msg : String)
  | response (status : Nat) (body : String)

/-- ExtractTextFromURL, manual DOM-traversal version of package scraper
(the copy embedded in main.go's source): `http.Get`; on transport error
return the error; on status other than 200 return the fixed error
"failed to fetch page"; otherwise parse the body and extract its text.
The fetch outcome and html.Parse are explicit inputs. -/
def domExtractTextFromURL (parse : String → HNode) (fetch : FetchResult) :
    Except String String :=
  match fetch with
  | .transportError msg => .error msg
  | .response status body =>
    if status ≠ 200 then .error "failed to fetch page"
    else .ok (extractTextFromHTML (parse body))

/-- Inputs of the readability-based ExtractTextFromURL
(src/scraper/text.go): the outcome of `client.Get` (client timeout 10s),
whether `url.Parse` succeeds, and the result of
`readability.FromReader` on the response body (the external library,
abstracted as a function). -/
structure ReadabilityEnv where
  fetch : FetchResult
  urlParses : Bool
  readability : String → Except String String

/-- The result of the readability-based ExtractTextFromURL together with
an observation needed by the fallback-policy claims: whether a headless
rendering attempt was made. The function body of
src/scraper/text.go contains no headless rendering call on any path, so
this field is false on every path. -/
structure ExtractOutcome where
  result : Except String String
  headlessAttempted : Bool

/-- ExtractTextFromURL from src/scraper/text.go: GET with a 10s client
timeout; transport error is returned as-is; status other than 200 yields
"failed to fetch the page"; a url.Parse failure yields
"failed to parse URL"; a readability error is returned as-is; extracted
text shorter than 100 bytes yields "extract failed: content too short";
otherwise the text is returned. No headless fallback exists in the
source: every path reports `headlessAttempted = false`. -/
def readabilityExtractTextFromURL (env : ReadabilityEnv) : ExtractOutcome :=
  match env.fetch with
  | .transportError msg => ⟨.error msg, false⟩
  | .response status body =>
    if status ≠ 200 then ⟨.error "failed to fetch the page", false⟩
    else if env.urlParses = false then ⟨.error "failed to parse URL", false⟩
    else
      match env.readability body with
      | .error e => ⟨.error e, false⟩
      | .ok text =>
        if text.utf8ByteSize < 100 then
          ⟨.error "extract failed: content too short", false⟩
        else ⟨.ok text, false⟩

/-- An HTTP response as written by the handler: status code, Content-Type
header (if set) and body. -/
structure HttpResponse where
  status : Nat
  contentType : Option String
  body : String

/-- The Content-Type that Go's http.Error sets. -/
def plainTextContentType : String := "text/plain; charset=utf-8"

/-- Model of Go's http.Error: a plain-text response carrying the message
followed by a newline. -/
def httpError (msg : String) (code : Nat) : HttpResponse :=
  ⟨code, some plainTextContentType, msg ++ "\n"⟩

/-- JSON escaping of one character (the escapes relevant to the model). -/
def jsonEscapeChar (c : Char) : String :=
  if c = '"' then "\\\""
  else if c = '\\' then "\\\\"
  else if c = '\n' then "\\n"
  else if c = '\r' then "\\r"
  else if c = '\t' then "\\t"
  else String.singleton c

/-- JSON string literal for `s`. -/
def jsonQuote (s : String) : String :=
  "\"" ++ String.join (s.data.map jsonEscapeChar) ++ "\""

/-- Model of json.NewEncoder(w).Encode(scrapeResponse{Content: content}):
the object with the single field "content", followed by a newline. -/
def encodeScrapeResponse (content : String) : String :=
  "\x7b\"content\":" ++ jsonQuote content ++ "\x7d\n"

/-- Inputs of scrapeHandler: the request method, the outcome of decoding
the JSON body into scrapeRequest (the url field, or none when decoding
fails), and scraper.ExtractTextFromURL abstracted as a function. -/
structure ScrapeRequestEnv where
  method : String
  decodedURL : Option String
  extractor : String → Except String String

/-- scrapeHandler from main.go. The Bool of the result records whether
scraper.ExtractTextFromURL was invoked. Non-POST methods get a plain-text
405; a JSON decode failure gets a plain-text 400; an extractor error gets
a plain-text 500 prefixed "Scraping failed: "; success gets a 200
application/json response encoding the extracted content. -/
def scrapeHandler (env : ScrapeRequestEnv) : HttpResponse × Bool :=
  if env.method ≠ "POST" then (httpError "Method not allowed" 405, false)
  else
    match env.decodedURL with
    | none => (httpError "Invalid JSON" 400, false)
    | some u =>
      match env.extractor u with
      | .error e => (httpError ("Scraping failed: " ++ e) 500, true)
      | .ok content =>
        (⟨200, some "application/json", encodeScrapeResponse content⟩, true)

/-! Facts about the trimming model. -/

theorem trimChars_head?_false (l : List Char) (a : Char)
    (h : (trimChars l).head? = some a) : goIsSpace a = false := by
  cases hT : trimChars l with
  | nil => rw [hT] at h; simp at h
  | cons x t =>
    rw [hT] at h
    simp only [List.head?_cons, Option.some.injEq] at h
    obtain ⟨r, hr⟩ := List.rdropWhile_prefix goIsSpace (List.dropWhile goIsSpace l)
    have hr' : List.dropWhile goIsSpace l = x :: (t ++ r) := by
      rw [← hr]
      rw [show List.rdropWhile goIsSpace (List.dropWhile goIsSpace l) = trimChars l from rfl,
        hT]
      simp
    have hnot := List.head?_dropWhile_not goIsSpace l
    rw [hr'] at hnot
    rw [← h]
    simpa using hnot

theorem trimChars_getLast?_false (l : List Char) (b : Char)
    (h : (trimChars l).getLast? = some b) : goIsSpace b = false := by
  have hne : trimChars l ≠ [] := by
    intro h0; rw [h0] at h; simp at h
  have hb : (trimChars l).getLast hne = b :=
    (List.getLast_eq_iff_getLast?_eq_some hne).mpr h
  have hlast := List.rdropWhile_last_not goIsSpace (List.dropWhile goIsSpace l) hne
  rw [show (List.rdropWhile goIsSpace (List.dropWhile goIsSpace l)).getLast hne
      = (trimChars l).getLast hne from rfl, hb] at hlast
  simpa using hlast

theorem dropWhile_trimChars (l : List Char) :
    List.dropWhile goIsSpace (trimChars l) = trimChars l := by
  cases h : trimChars l with
  | nil => simp
  | cons a t =>
    have ha : goIsSpace a = false := trimChars_head?_false l a (by rw [h]; rfl)
    simp [ha]

theorem trimChars_idem (l : List Char) : trimChars (trimChars l) = trimChars l := by
  show List.rdropWhile goIsSpace (List.dropWhile goIsSpace (trimChars l)) = trimChars l
  rw [dropWhile_trimChars]
  exact List.rdropWhile_idempotent goIsSpace (List.dropWhile goIsSpace l)

theorem trimSpace_idem (s : String) : trimSpace (trimSpace s) = trimSpace s :=
  congrArg String.mk (trimChars_idem s.data)

theorem infix_dropWhile {α : Type} (p : α → Bool) (a : α) (t l : List α)
    (ha : p a = false) (h : (a :: t) <:+: l) :
    (a :: t) <:+: List.dropWhile p l := by
  obtain ⟨s1, s2, rfl⟩ := h
  induction s1 with
  | nil =>
    have he : ([] : List α) ++ (a :: t) ++ s2 = a :: (t ++ s2) := by simp
    rw [he, List.dropWhile_cons_of_neg (by simp [ha])]
    exact ⟨[], s2, by simp⟩
  | cons x s1 ih =>
    have he : (x :: s1) ++ (a :: t) ++ s2 = x :: (s1 ++ (a :: t) ++ s2) := by simp
    rw [he]
    by_cases hx : p x
    · rw [List.dropWhile_cons_of_pos hx]
      exact ih
    · rw [List.dropWhile_cons_of_neg hx]
      exact ⟨x :: s1, s2, by simp⟩

theorem infix_rdropWhile {α : Type} (p : α → Bool) (b : α) (t l : List α)
    (hb : p b = false) (h : (t ++ [b]) <:+: l) :
    (t ++ [b]) <:+: List.rdropWhile p l := by
  have h1 : (b :: t.reverse) <:+: l.reverse := by
    simpa using h.reverse
  have h2 := infix_dropWhile p b t.reverse l.reverse hb h1
  have h3 := h2.reverse
  simpa [List.rdropWhile] using h3

theorem infix_trimChars (T l : List Char)
    (hh : ∀ a, T.head? = some a → goIsSpace a = false)
    (hl : ∀ b, T.getLast? = some b → goIsSpace b = false)
    (h : T <:+: l) : T <:+: trimChars l := by
  cases T with
  | nil => exact List.nil_infix
  | cons a t =>
    have ha : goIsSpace a = false := hh a rfl
    have step1 : (a :: t) <:+: List.dropWhile goIsSpace l :=
      infix_dropWhile goIsSpace a t l ha h
    obtain ⟨b, hb⟩ : ∃ b, (a :: t).getLast? = some b :=
      ⟨(a :: t).getLast (by simp), List.getLast?_eq_getLast _ _⟩
    obtain ⟨ys, hys⟩ := List.getLast?_eq_some_iff.mp hb
    have hbf : goIsSpace b = false := hl b hb
    show (a :: t) <:+: List.rdropWhile goIsSpace (List.dropWhile goIsSpace l)
    rw [hys] at step1 ⊢
    exact infix_rdropWhile goIsSpace b ys _ hbf step1

/-! Facts about the traversal. -/

theorem forestText_append (parent : Option HNode) (l1 l2 : List HNode) :
    forestText parent (l1 ++ l2) = forestText parent l1 ++ forestText parent l2 := by
  induction l1 with
  | nil => simp [forestText]
  | cons n rest ih =>
    cases n with
    | mk ty data children =>
      simp only [List.cons_append, forestText, ih, String.append_assoc]

theorem textNodeChunk_parent_congr (n : HNode) (p q : Option HNode)
    (h : isIgnorable p = isIgnorable q) : textNodeChunk p n = textNodeChunk q n := by
  simp [textNodeChunk, h]

theorem forestText_parent_congr (l : List HNode) (p q : Option HNode)
    (h : isIgnorable p = isIgnorable q) : forestText p l = forestText q l := by
  induction l with
  | nil => simp [forestText]
  | cons n rest ih =>
    cases n with
    | mk ty data children =>
      simp only [forestText, ih]
      rw [textNodeChunk_parent_congr _ p q h]

/-- Blank the data of every text node that sits directly under an
ignorable element (script, style, head, noscript), everywhere in the
forest; `parentIgn` says whether the surrounding parent is ignorable. -/
def eraseForest (parentIgn : Bool) : List HNode → List HNode
  | [] => []
  | HNode.mk ty data children :: rest =>
    HNode.mk ty (if parentIgn && (ty == NodeType.textNode) then "" else data)
      (eraseForest (isIgnorable (some (HNode.mk ty data children))) children)
      :: eraseForest parentIgn rest

theorem isIgnorable_erase_eq (ty : NodeType) (data : String)
    (children newChildren : List HNode) (b : Bool) :
    isIgnorable (some (HNode.mk ty (if b && (ty == NodeType.textNode) then "" else data)
        newChildren))
      = isIgnorable (some (HNode.mk ty data children)) := by
  by_cases hty : ty = NodeType.elementNode
  · subst hty
    simp [isIgnorable, HNode.type, HNode.data]
  · simp [isIgnorable, HNode.type, hty]

theorem textNodeChunk_erase (parent : Option HNode) (ty : NodeType) (d : String)
    (ch ch' : List HNode) (b : Bool) (hb : isIgnorable parent = b) :
    textNodeChunk parent (HNode.mk ty (if b && (ty == NodeType.textNode) then "" else d) ch')
      = textNodeChunk parent (HNode.mk ty d ch) := by
  by_cases hty : ty = NodeType.textNode
  · subst hty
    cases b with
    | false => simp [textNodeChunk, HNode.type, HNode.data]
    | true => simp [textNodeChunk, hb]
  · simp [textNodeChunk, HNode.type, hty]

theorem forestText_eraseForest (b : Bool) (l : List HNode) :
    ∀ parent : Option HNode, isIgnorable parent = b →
      forestText parent (eraseForest b l) = forestText parent l := by
  induction b, l using eraseForest.induct with
  | case1 b => intro parent _; simp [eraseForest]
  | case2 b ty data children rest ih1 ih2 =>
    intro parent hp
    simp only [eraseForest, forestText]
    rw [textNodeChunk_erase parent ty data children _ b hp]
    rw [ih2 parent hp]
    have hpar := isIgnorable_erase_eq ty data children
      (eraseForest (isIgnorable (some (HNode.mk ty data children))) children) b
    rw [ih1 _ hpar]
    rw [forestText_parent_congr children _ (some (HNode.mk ty data children)) hpar]

/-- Node-level version of `eraseForest`, applied to a parsed document
(whose parent pointer is nil, hence not ignorable). -/
def eraseDirectIgnorableText (doc : HNode) : HNode :=
  HNode.mk doc.type doc.data (eraseForest (isIgnorable (some doc)) doc.children)

/-- Blank the data of every text node whose data trims to the empty
string, everywhere in the forest. -/
def scrubWhitespaceNodes : List HNode → List HNode
  | [] => []
  | HNode.mk ty data children :: rest =>
    HNode.mk ty (if (ty == NodeType.textNode) && (trimSpace data == "") then "" else data)
      (scrubWhitespaceNodes children) :: scrubWhitespaceNodes rest

theorem isIgnorable_scrub_eq (ty : NodeType) (data : String)
    (children newChildren : List HNode) :
    isIgnorable (some (HNode.mk ty
        (if (ty == NodeType.textNode) && (trimSpace data == "") then "" else data)
        newChildren))
      = isIgnorable (some (HNode.mk ty data children)) := by
  by_cases hty : ty = NodeType.elementNode
  · subst hty
    simp [isIgnorable, HNode.type, HNode.data]
  · simp [isIgnorable, HNode.type, hty]

theorem textNodeChunk_scrub (parent : Option HNode) (ty : NodeType) (d : String)
    (ch ch' : List HNode) :
    textNodeChunk parent (HNode.mk ty
        (if (ty == NodeType.textNode) && (trimSpace d == "") then "" else d) ch')
      = textNodeChunk parent (HNode.mk ty d ch) := by
  by_cases hty : ty = NodeType.textNode
  · subst hty
    by_cases hd : trimSpace d = ""
    · simp [textNodeChunk, HNode.type, HNode.data, hd]
      intro _ h2
      exact absurd rfl h2
    · simp [textNodeChunk, HNode.type, HNode.data, hd]
  · simp [textNodeChunk, HNode.type, hty]

theorem forestText_scrub (l : List HNode) :
    ∀ parent : Option HNode,
      forestText parent (scrubWhitespaceNodes l) = forestText parent l := by
  induction l using scrubWhitespaceNodes.induct with
  | case1 => intro parent; simp [scrubWhitespaceNodes]
  | case2 ty data children rest ih1 ih2 =>
    intro parent
    simp only [scrubWhitespaceNodes, forestText]
    rw [textNodeChunk_scrub parent ty data children]
    rw [ih2 parent]
    have hpar := isIgnorable_scrub_eq ty data children (scrubWhitespaceNodes children)
    rw [forestText_parent_congr (scrubWhitespaceNodes children) _
      (some (HNode.mk ty data children)) hpar]
    rw [ih1 (some (HNode.mk ty data children))]

/-- Node-level version of `scrubWhitespaceNodes`. -/
def scrubWhitespaceText (doc : HNode) : HNode :=
  HNode.mk doc.type
    (if (doc.type == NodeType.textNode) && (trimSpace doc.data == "") then "" else doc.data)
    (scrubWhitespaceNodes doc.children)

theorem eraseForest_false_singleton (doc : HNode) :
    eraseForest false [doc] = [eraseDirectIgnorableText doc] := by
  cases doc with
  | mk ty data children =>
    simp [eraseForest, eraseDirectIgnorableText, HNode.type, HNode.data, HNode.children]

theorem scrubWhitespaceNodes_singleton (doc : HNode) :
    scrubWhitespaceNodes [doc] = [scrubWhitespaceText doc] := by
  cases doc with
  | mk ty data children =>
    simp [scrubWhitespaceNodes, scrubWhitespaceText, HNode.type, HNode.data, HNode.children]

theorem forestText_singleton (parent : Option HNode) (ty : NodeType) (data : String)
    (children : List HNode) :
    forestText parent [HNode.mk ty data children]
      = textNodeChunk parent (HNode.mk ty data children)
        ++ forestText (some (HNode.mk ty data children)) children := by
  simp [forestText]

theorem forestText_nil (parent : Option HNode) : forestText parent [] = "" := by
  simp [forestText]

theorem infix_append_right {α : Type} (l a rest : List α) (h : l <:+: rest) :
    l <:+: a ++ rest := by
  obtain ⟨u, v, rfl⟩ := h
  exact ⟨a ++ u, v, by simp⟩

theorem text_included_of_parent_not_element (ty : NodeType) (data s : String)
    (pre post : List HNode) (hty : ty ≠ NodeType.elementNode) (hs : trimSpace s ≠ "") :
    (trimSpace s).data <:+:
      (extractTextFromHTML
        (HNode.mk ty data (pre ++ HNode.mk NodeType.textNode s [] :: post))).data := by
  have hig : isIgnorable (some (HNode.mk ty data
      (pre ++ HNode.mk NodeType.textNode s [] :: post))) = false := by
    simp [isIgnorable, HNode.type, hty]
  have hchunk : textNodeChunk (some (HNode.mk ty data
        (pre ++ [HNode.mk NodeType.textNode s []] ++ post)))
      (HNode.mk NodeType.textNode s []) = trimSpace s ++ " " := by
    simp [textNodeChunk, HNode.type, HNode.data, hig, hs]
  have hsplit : pre ++ HNode.mk NodeType.textNode s [] :: post
      = pre ++ [HNode.mk NodeType.textNode s []] ++ post := by simp
  have hinfix : (trimSpace s).data <:+:
      (forestText none [HNode.mk ty data
        (pre ++ HNode.mk NodeType.textNode s [] :: post)]).data := by
    rw [hsplit, forestText_singleton, forestText_append, forestText_append,
      forestText_singleton, forestText_nil, hchunk]
    simp only [String.data_append, List.append_assoc, List.append_nil]
    exact infix_append_right _ _ _ (infix_append_right _ _ _
      (List.IsPrefix.isInfix (List.prefix_append _ _)))
  show (trimSpace s).data <:+:
    (trimSpace (forestText none [HNode.mk ty data
      (pre ++ HNode.mk NodeType.textNode s [] :: post)])).data
  exact infix_trimChars (trimSpace s).data _
    (fun a h => trimChars_head?_false s.data a h)
    (fun b h => trimChars_getLast?_false s.data b h) hinfix

/-! Concrete documents used by the counterexamples and witnesses. -/

/-- A document whose head contains a title with text: the text node
"Hello" sits at depth two below the non-content element head (its
immediate parent is title). -/
def headTitleDoc : HNode :=
  .mk .documentNode "" [
    .mk .elementNode "html" [
      .mk .elementNode "head" [
        .mk .elementNode "title" [ .mk .textNode "Hello" [] ] ],
      .mk .elementNode "body" [ .mk .textNode "World" [] ] ] ]

/-- A document whose single text node contains two consecutive interior
spaces. -/
def doubleSpaceDoc : HNode :=
  .mk .documentNode "" [
    .mk .elementNode "html" [
      .mk .elementNode "body" [ .mk .textNode "a  b" [] ] ] ]

theorem headTitleDoc_text : extractTextFromHTML headTitleDoc = "Hello World" := by
  simp [extractTextFromHTML, headTitleDoc, forestText, textNodeChunk, isIgnorable,
    HNode.type, HNode.data]
  decide

theorem doubleSpaceDoc_text : extractTextFromHTML doubleSpaceDoc = "a  b" := by
  simp [extractTextFromHTML, doubleSpaceDoc, forestText, textNodeChunk, isIgnorable,
    HNode.type, HNode.data]
  decide

/-- C2 counterexample: the claim demands that no text node anywhere inside
a subtree rooted at a non-content element contribute to the output, so on
`headTitleDoc` it demands the output "World". The code consults only the
immediate parent (title, not ignorable), so "Hello" — which lies below
head at depth two — contributes, and the output is "Hello World". -/
theorem C2_counterexample :
    extractTextFromHTML headTitleDoc = "Hello World"
    ∧ extractTextFromHTML headTitleDoc ≠ "World" := by
  refine ⟨headTitleDoc_text, ?_⟩
  rw [headTitleDoc_text]
  decide

/-- C2 (amended): a text node is excluded exactly when its immediate
parent is one of script, style, head, noscript: blanking every text node
that sits directly under such an element leaves the extracted text
unchanged. Text nested deeper below a non-content element (with an
intervening element such as title) is not excluded, as the
counterexample shows. -/
theorem C2_immediate_parent_exclusion (doc : HNode) :
    extractTextFromHTML (eraseDirectIgnorableText doc) = extractTextFromHTML doc := by
  unfold extractTextFromHTML
  rw [← eraseForest_false_singleton doc, forestText_eraseForest false [doc] none rfl]

/-- C7 counterexample: the claim says the output never contains two or
more consecutive whitespace characters, but whitespace interior to a
single text node is preserved: the document with text node "a  b"
extracts to "a  b", which contains two consecutive spaces. -/
theorem C7_counterexample :
    extractTextFromHTML doubleSpaceDoc = "a  b"
    ∧ ("  ").data <:+: (extractTextFromHTML doubleSpaceDoc).data := by
  refine ⟨doubleSpaceDoc_text, ?_⟩
  rw [doubleSpaceDoc_text]
  decide

/-- C7 (amended): the output has no leading or trailing whitespace
(trimming it is the identity), and whitespace-only text nodes contribute
nothing (blanking them all leaves the output unchanged); but whitespace
interior to a single text node is preserved, so the output can contain
consecutive whitespace characters. -/
theorem C7_whitespace_handling :
    (∀ doc : HNode, trimSpace (extractTextFromHTML doc) = extractTextFromHTML doc)
    ∧ (∀ doc : HNode,
        extractTextFromHTML (scrubWhitespaceText doc) = extractTextFromHTML doc) := by
  constructor
  · intro doc
    exact trimSpace_idem _
  · intro doc
    unfold extractTextFromHTML
    rw [← scrubWhitespaceNodes_singleton doc, forestText_scrub [doc] none]

/-- C10: isIgnorable is total and returns false on a nil (none) parent
and on any non-element node, and a text node whose parent is not an
element node is included in the output: its trimmed data occurs in the
extracted text. -/
theorem C10_isIgnorable_total_safe :
    isIgnorable none = false
    ∧ (∀ n : HNode, n.type ≠ NodeType.elementNode → isIgnorable (some n) = false)
    ∧ (∀ (ty : NodeType) (data s : String) (pre post : List HNode),
        ty ≠ NodeType.elementNode → trimSpace s ≠ "" →
        (trimSpace s).data <:+:
          (extractTextFromHTML
            (HNode.mk ty data (pre ++ HNode.mk NodeType.textNode s [] :: post))).data) := by
  refine ⟨rfl, ?_, ?_⟩
  · intro n h
    simp [isIgnorable, h]
  · intro ty data s pre post hty hs
    exact text_included_of_parent_not_element ty data s pre post hty hs

/-- Witness for C10 at a concrete input: a text node "hi" directly under
the document node (a non-element parent) is included in the output. -/
theorem C10_witness :
    (trimSpace "hi").data <:+:
      (extractTextFromHTML (HNode.mk NodeType.documentNode ""
        ([] ++ HNode.mk NodeType.textNode "hi" [] :: []))).data :=
  C10_isIgnorable_total_safe.2.2 NodeType.documentNode "" "hi" [] []
    (by decide) (by decide)

/-! Concrete environments used by the extractor and handler claims. -/

/-- A readability model that extracts 40 bytes of text from any body. -/
def shortTextReadability : String → Except String String :=
  fun _ => .ok "Short page body text under one hundred."

/-- A readability model that extracts nothing. -/
def emptyReadability : String → Except String String :=
  fun _ => .ok ""

/-- A parse model producing an empty document. -/
def trivialParse : String → HNode :=
  fun _ => .mk .documentNode "" []

/-- A successful fetch whose page yields less than 100 bytes of text. -/
def shortPageEnv : ReadabilityEnv :=
  ⟨.response 200 "<html><body>Short page body text under one hundred.</body></html>",
    true, shortTextReadability⟩

/-- A fetch answered with HTTP 404. -/
def notFoundFetch : FetchResult := .response 404 "Not Found"

/-- C1 counterexample: a primary fetch that succeeds (status 200) but
yields 40 bytes of extracted text produces the terminal failure
"extract failed: content too short" with no headless attempt, contrary
to the claim that a headless attempt always precedes such a terminal
failure. -/
theorem C1_counterexample :
    (readabilityExtractTextFromURL shortPageEnv).result
      = .error "extract failed: content too short"
    ∧ (readabilityExtractTextFromURL shortPageEnv).headlessAttempted = false :=
  ⟨rfl, rfl⟩

/-- C1 (amended): when the primary fetch succeeds with status 200 and the
extracted text is shorter than the 100-byte minimum, ExtractTextFromURL
returns the terminal error "extract failed: content too short"
immediately; no headless fallback exists in the code, so no headless
attempt is made on any path. -/
theorem C1_short_content_terminal (env : ReadabilityEnv) (body text : String)
    (hf : env.fetch = .response 200 body) (hu : env.urlParses = true)
    (hr : env.readability body = .ok text) (hshort : text.utf8ByteSize < 100) :
    (readabilityExtractTextFromURL env).result
      = .error "extract failed: content too short"
    ∧ (readabilityExtractTextFromURL env).headlessAttempted = false := by
  cases env with
  | mk fetch urlParses readability =>
    simp only at hf hu hr
    subst hf hu
    simp [readabilityExtractTextFromURL, hr, hshort]

/-- Witness for C1 at a concrete input. -/
theorem C1_witness :
    (readabilityExtractTextFromURL shortPageEnv).result
      = .error "extract failed: content too short" :=
  (C1_short_content_terminal shortPageEnv
    "<html><body>Short page body text under one hundred.</body></html>"
    "Short page body text under one hundred." rfl rfl rfl (by decide)).1

/-- The fetch outcomes the C8 claim quantifies over: a transport error or
a response with a status other than 200 OK. -/
def fetchRejected : FetchResult → Prop
  | .transportError _ => True
  | .response status _ => status ≠ 200

/-- C8: the two duplicate ExtractTextFromURL implementations agree on the
fetch acceptance condition: on a transport error or any non-200 status,
each returns an error and neither returns content. -/
theorem C8_fetch_agreement (parse : String → HNode) (urlParses : Bool)
    (readability : String → Except String String) (fetch : FetchResult)
    (hrej : fetchRejected fetch) :
    (∃ e1, domExtractTextFromURL parse fetch = .error e1)
    ∧ (∃ e2, (readabilityExtractTextFromURL ⟨fetch, urlParses, readability⟩).result
        = .error e2) := by
  cases fetch with
  | transportError msg =>
    exact ⟨⟨msg, rfl⟩, ⟨msg, rfl⟩⟩
  | response status body =>
    have h : status ≠ 200 := hrej
    refine ⟨⟨"failed to fetch page", ?_⟩, ⟨"failed to fetch the page", ?_⟩⟩ <;>
      simp [domExtractTextFromURL, readabilityExtractTextFromURL, h]

/-- Witness for C8 at a concrete input (HTTP 404). -/
theorem C8_witness :
    (∃ e1, domExtractTextFromURL trivialParse notFoundFetch = .error e1)
    ∧ (∃ e2, (readabilityExtractTextFromURL
        ⟨notFoundFetch, true, emptyReadability⟩).result = .error e2) :=
  C8_fetch_agreement trivialParse true emptyReadability notFoundFetch
    (by show (404 : Nat) ≠ 200; decide)

/-- C6 counterexample: on HTTP 404 both implementations return their
fixed error message, and neither message contains the received status
"404" — the error carries no HTTP-status diagnostic detail. -/
theorem C6_counterexample :
    (readabilityExtractTextFromURL ⟨notFoundFetch, true, emptyReadability⟩).result
      = .error "failed to fetch the page"
    ∧ domExtractTextFromURL trivialParse notFoundFetch = .error "failed to fetch page"
    ∧ ¬ (("404").data <:+: ("failed to fetch the page").data)
    ∧ ¬ (("404").data <:+: ("failed to fetch page").data) :=
  ⟨rfl, rfl, by decide, by decide⟩

/-- C6 (amended): every primary fetch that suffers a transport error or
returns a non-success status makes both ExtractTextFromURL versions
return an error; the non-200-status error is a fixed message
("failed to fetch page" / "failed to fetch the page") that does not
carry the HTTP status, and the transport error is passed through. -/
theorem C6_fetch_failure_errors (parse : String → HNode) (urlParses : Bool)
    (readability : String → Except String String) (status : Nat) (body msg : String)
    (hs : status ≠ 200) :
    domExtractTextFromURL parse (.response status body) = .error "failed to fetch page"
    ∧ (readabilityExtractTextFromURL ⟨.response status body, urlParses, readability⟩).result
        = .error "failed to fetch the page"
    ∧ domExtractTextFromURL parse (.transportError msg) = .error msg
    ∧ (readabilityExtractTextFromURL ⟨.transportError msg, urlParses, readability⟩).result
        = .error msg := by
  refine ⟨?_, ?_, rfl, rfl⟩ <;>
    simp [domExtractTextFromURL, readabilityExtractTextFromURL, hs]

/-- Witness for C6 at a concrete input (HTTP 503). -/
theorem C6_witness :
    domExtractTextFromURL trivialParse (.response 503 "unavailable")
      = .error "failed to fetch page"
    ∧ (readabilityExtractTextFromURL
        ⟨.response 503 "unavailable", true, emptyReadability⟩).result
      = .error "failed to fetch the page" :=
  ⟨(C6_fetch_failure_errors trivialParse true emptyReadability 503 "unavailable" "x"
      (by decide)).1,
    (C6_fetch_failure_errors trivialParse true emptyReadability 503 "unavailable" "x"
      (by decide)).2.1⟩

/-- The ftp submission scenario: POST, body decoding to url
"ftp://example.com", and the extractor being the readability-based model
whose http client rejects the unsupported scheme with a transport error. -/
def ftpSubmissionEnv : ScrapeRequestEnv :=
  ⟨"POST", some "ftp://example.com",
    fun _ => (readabilityExtractTextFromURL
      ⟨.transportError "Get \"ftp://example.com\": unsupported protocol scheme \"ftp\"",
        true, emptyReadability⟩).result⟩

/-- A valid submission whose extraction succeeds. -/
def okExtractEnv : ScrapeRequestEnv :=
  ⟨"POST", some "https://example.com/page", fun _ => .ok "Extracted page text"⟩

/-- The same submission with a different extraction result. -/
def okExtractEnv2 : ScrapeRequestEnv :=
  ⟨"POST", some "https://example.com/page", fun _ => .ok "Different page text"⟩

/-- A POST whose body fails to decode as JSON. -/
def badJsonEnv : ScrapeRequestEnv :=
  ⟨"POST", none, fun _ => .ok ""⟩

/-- A GET request. -/
def getMethodEnv : ScrapeRequestEnv :=
  ⟨"GET", some "https://example.com/page", fun _ => .ok ""⟩

/-- C3 counterexample: submitting url "ftp://example.com" does not fail
with an InvalidInput rejection before any fetch: the handler invokes
scraper.ExtractTextFromURL (which issues the GET), and the failure
surfaces as a 500 "Scraping failed: ..." response, not a 4xx
invalid-input response. -/
theorem C3_counterexample :
    (scrapeHandler ftpSubmissionEnv).2 = true
    ∧ (scrapeHandler ftpSubmissionEnv).1.status = 500
    ∧ (scrapeHandler ftpSubmissionEnv).1.body
        = "Scraping failed: Get \"ftp://example.com\": unsupported protocol scheme \"ftp\"\n"
    ∧ (scrapeHandler ftpSubmissionEnv).1.status ≠ 400 :=
  ⟨rfl, rfl, rfl, by decide⟩

/-- C3 (amended): the handler performs no URL validation: every decoded
url is handed to the extractor, and an extractor failure — which is how a
non-http(s) scheme manifests, since the http client rejects the scheme —
is returned as a 500 plain-text "Scraping failed: ..." response. No job
system exists, so no job id is ever issued. -/
theorem C3_no_scheme_validation (env : ScrapeRequestEnv) (u e : String)
    (hm : env.method = "POST") (hd : env.decodedURL = some u)
    (he : env.extractor u = .error e) :
    scrapeHandler env = (httpError ("Scraping failed: " ++ e) 500, true) := by
  cases env with
  | mk method decodedURL extractor =>
    simp only at hm hd he
    subst hm hd
    simp [scrapeHandler, he]

/-- Witness for C3 at the ftp submission. -/
theorem C3_witness :
    scrapeHandler ftpSubmissionEnv
      = (httpError ("Scraping failed: "
          ++ "Get \"ftp://example.com\": unsupported protocol scheme \"ftp\"") 500, true) :=
  C3_no_scheme_validation ftpSubmissionEnv "ftp://example.com"
    "Get \"ftp://example.com\": unsupported protocol scheme \"ftp\"" rfl rfl rfl

/-- C4 counterexample: a valid submission is answered only after the
extraction ran (the extractor is invoked), the response body is exactly
the JSON encoding of the extracted text — it carries no job identifier
and no processing status — and changing the extraction result changes
the response body, so the response depends on the extracted text. -/
theorem C4_counterexample :
    (scrapeHandler okExtractEnv).2 = true
    ∧ (scrapeHandler okExtractEnv).1.body
        = "\x7b\"content\":\"Extracted page text\"\x7d\n"
    ∧ (scrapeHandler okExtractEnv).1.body ≠ (scrapeHandler okExtractEnv2).1.body := by
  refine ⟨rfl, ?_, ?_⟩ <;> decide

/-- C4 (amended): the submission endpoint performs the extraction
synchronously: on success it responds 200 application/json with exactly
the JSON encoding of the extracted content; the response contains no job
identifier and no processing status. -/
theorem C4_synchronous_response (env : ScrapeRequestEnv) (u c : String)
    (hm : env.method = "POST") (hd : env.decodedURL = some u)
    (he : env.extractor u = .ok c) :
    scrapeHandler env
      = (⟨200, some "application/json", encodeScrapeResponse c⟩, true) := by
  cases env with
  | mk method decodedURL extractor =>
    simp only at hm hd he
    subst hm hd
    simp [scrapeHandler, he]

/-- Witness for C4 at a concrete submission. -/
theorem C4_witness :
    scrapeHandler okExtractEnv
      = (⟨200, some "application/json", encodeScrapeResponse "Extracted page text"⟩, true) :=
  C4_synchronous_response okExtractEnv "https://example.com/page" "Extracted page text"
    rfl rfl rfl

/-- C5 counterexample: a POST whose body fails to decode is answered with
the plain-text http.Error body "Invalid JSON" (Content-Type
text/plain; charset=utf-8), whose first character is not an opening
brace — it is not the JSON object {success:false, error:{...}} the claim
requires for all failures. -/
theorem C5_counterexample :
    (scrapeHandler badJsonEnv).1.contentType = some plainTextContentType
    ∧ (scrapeHandler badJsonEnv).1.body = "Invalid JSON\n"
    ∧ (scrapeHandler badJsonEnv).1.body.data.head? ≠ some (Char.ofNat 123) :=
  ⟨rfl, rfl, by decide⟩

/-- C5 (amended): every failure is surfaced through http.Error as a
plain-text response (Content-Type text/plain; charset=utf-8) with status
405, 400 or 500; no failure is encoded as a JSON error object. -/
theorem C5_failures_are_plaintext (env : ScrapeRequestEnv) :
    (env.method ≠ "POST" →
      (scrapeHandler env).1.contentType = some plainTextContentType
      ∧ (scrapeHandler env).1.status = 405)
    ∧ (env.method = "POST" → env.decodedURL = none →
      (scrapeHandler env).1.contentType = some plainTextContentType
      ∧ (scrapeHandler env).1.status = 400)
    ∧ (∀ u e, env.method = "POST" → env.decodedURL = some u →
        env.extractor u = .error e →
      (scrapeHandler env).1.contentType = some plainTextContentType
      ∧ (scrapeHandler env).1.status = 500) := by
  refine ⟨?_, ?_, ?_⟩
  · intro hm
    simp [scrapeHandler, hm, httpError]
  · intro hm hd
    simp [scrapeHandler, hm, hd, httpError]
  · intro u e hm hd he
    simp [scrapeHandler, hm, hd, he, httpError]

/-- Witness for C5 at concrete failing requests. -/
theorem C5_witness :
    ((scrapeHandler getMethodEnv).1.contentType = some plainTextContentType
      ∧ (scrapeHandler getMethodEnv).1.status = 405)
    ∧ ((scrapeHandler badJsonEnv).1.contentType = some plainTextContentType
      ∧ (scrapeHandler badJsonEnv).1.status = 400)
    ∧ ((scrapeHandler ftpSubmissionEnv).1.contentType = some plainTextContentType
      ∧ (scrapeHandler ftpSubmissionEnv).1.status = 500) :=
  ⟨(C5_failures_are_plaintext getMethodEnv).1 (by decide),
    (C5_failures_are_plaintext badJsonEnv).2.1 rfl rfl,
    (C5_failures_are_plaintext ftpSubmissionEnv).2.2 "ftp://example.com"
      "Get \"ftp://example.com\": unsupported protocol scheme \"ftp\"" rfl rfl rfl⟩

/-- C9: a non-POST request is answered 405 "Method not allowed" without
invoking the extractor, and a POST whose body fails to decode as JSON is
answered 400 "Invalid JSON" without invoking the extractor. -/
theorem C9_method_and_decode_guard (env : ScrapeRequestEnv) :
    (env.method ≠ "POST" →
      scrapeHandler env = (httpError "Method not allowed" 405, false))
    ∧ (env.method = "POST" → env.decodedURL = none →
      scrapeHandler env = (httpError "Invalid JSON" 400, false)) := by
  constructor
  · intro hm
    simp [scrapeHandler, hm]
  · intro hm hd
    simp [scrapeHandler, hm, hd]

/-- Witness for C9 at concrete requests. -/
theorem C9_witness :
    scrapeHandler getMethodEnv = (httpError "Method not allowed" 405, false)
    ∧ scrapeHandler badJsonEnv = (httpError "Invalid JSON" 400, false) :=
  ⟨(C9_method_and_decode_guard getMethodEnv).1 (by decide),
    (C9_method_and_decode_guard badJsonEnv).2 rfl rfl⟩
